import Mathlib

/-!
Shallow embedding of `src/compass_dashboard.py` (Terrapin Compass dashboard).

The dashboard issues read-only SQL queries over three tables (`trades`,
`quotes`, `bonds`) for a fixed reporting day, and renders the results.  We
model each table as a list of records, each SQL query as a Lean function over
those lists, and the per-view rendering branches as functions producing a
list of render items.

Conventions used throughout:
* timestamps are seconds since the Unix epoch, `Option Int` where the SQL
  column is nullable; an SQL comparison against NULL is false;
* `SELECT distinct` / `GROUP BY` is modelled with `List.dedup`;
* `ORDER BY` / Python `sorted` is modelled with `List.insertionSort`, a
  stable sort like the ones the source relies on;
* the driver renders a Python tuple bound to an `IN %(venues)s` placeholder
  as a parenthesised value list; for the empty tuple this produces an empty
  `IN ()` list, which PostgreSQL rejects as a syntax error, so the queries
  that filter on the selected-venues tuple return `Except` and fail when the
  venue list is empty.
-/

namespace Compass

/-- A row of the `trades` table
(`trades(id, isin, venue, trade_datetime, price, price_type, quantity, notional_amount, source)`). -/
structure Trade where
  id : Nat
  isin : String
  venue : Option String
  trade_datetime : Option Int
  price : Int
  price_type : String
  quantity : Int
  notional_amount : Int
  source : String
deriving DecidableEq, Repr

/-- A row of the `quotes` table
(`quotes(isin, quote_datetime, price, quantity, side, source)`). -/
structure Quote where
  isin : String
  quote_datetime : Option Int
  price : Int
  quantity : Int
  side : String
  source : String
deriving DecidableEq, Repr

/-- A row of the static `bonds` reference table
(`bonds(isin, ticker, issuer, coupon, maturity_date, currency, issuer_type, asset_class, country, tp_sector)`). -/
structure Bond where
  isin : String
  ticker : String
  issuer : String
  coupon : Int
  maturity_date : Int
  currency : String
  issuer_type : String
  asset_class : String
  country : String
  tp_sector : String
deriving DecidableEq, Repr

/-- The relational store the dashboard queries. -/
structure DB where
  trades : List Trade
  quotes : List Quote
  bonds : List Bond
deriving DecidableEq, Repr

/-- `day = date(2023, 6, 2)` (source line 18), as seconds since the Unix
epoch: 19510 days of 86400 seconds. -/
def dayStart : Int := 19510 * 86400

/-- `%(date)s + interval '1 day'`: midnight of 2023-06-03. -/
def dayEnd : Int := dayStart + 86400

/-- `%(date)s - interval '1 month'`: 2023-05-02, 31 days before the
reporting day. -/
def monthStart : Int := dayStart - 31 * 86400

/-- SQL `ts > lo` on a nullable timestamp: false when the column is NULL. -/
def tsAfter (ts : Option Int) (lo : Int) : Bool :=
  match ts with
  | some t => decide (lo < t)
  | none => false

/-- SQL `ts < hi` on a nullable timestamp: false when the column is NULL. -/
def tsBefore (ts : Option Int) (hi : Int) : Bool :=
  match ts with
  | some t => decide (t < hi)
  | none => false

/-- `trade_datetime > %(date)s AND trade_datetime < %(date)s + interval '1 day'`. -/
def inDayWindow (ts : Option Int) : Bool :=
  tsAfter ts dayStart && tsBefore ts dayEnd

/-- `trade_datetime > %(date)s - interval '1 month' AND trade_datetime < %(date)s + interval '1 day'`. -/
def inMonthWindow (ts : Option Int) : Bool :=
  tsAfter ts monthStart && tsBefore ts dayEnd

/-- SQL `venue IN (...)` on a nullable column: false when the column is NULL. -/
def venueIn (v : Option String) (venues : List String) : Bool :=
  match v with
  | some s => venues.contains s
  | none => false

/-- `EXISTS(SELECT 1 FROM bonds WHERE isin = .. AND issuer_type = .. AND asset_class != 'asset-backed security')`
(source line 46). -/
def existsBondIssuerNotABS (db : DB) (isin issuer_type : String) : Bool :=
  db.bonds.any fun b =>
    (b.isin == isin) && (b.issuer_type == issuer_type)
      && !(b.asset_class == "asset-backed security")

/-- `EXISTS(SELECT 1 FROM bonds WHERE isin = .. AND asset_class != 'asset-backed security')`
(source lines 58, 70, 77). -/
def existsBondNotABS (db : DB) (isin : String) : Bool :=
  db.bonds.any fun b =>
    (b.isin == isin) && !(b.asset_class == "asset-backed security")

/-- `get_eligible_venues` (source lines 31-40): distinct non-null venues of
day-window trades with `price_type = 'PERC'`, then Python `list(sorted(..))`. -/
def get_eligible_venues (db : DB) : List String :=
  let sel := db.trades.filter fun t =>
    inDayWindow t.trade_datetime && (t.price_type == "PERC") && t.venue.isSome
  List.insertionSort (fun a b : String => a ≤ b) ((sel.filterMap (·.venue)).dedup)

/-- `GROUP BY isin` with `count(*) how_many`: one `(isin, count)` pair per
distinct isin of the input list. -/
def groupCounts (isins : List String) : List (String × Nat) :=
  isins.dedup.map fun i => (i, isins.count i)

/-- The WHERE clause of `get_most_traded_df` (source lines 46-48). -/
def mostTradedPred (db : DB) (issuer_type : String) (t : Trade) : Bool :=
  existsBondIssuerNotABS db t.isin issuer_type && inDayWindow t.trade_datetime

/-- `get_most_traded_df(issuer_type)` (source lines 42-52): per-isin trade
counts over the day window, restricted to isins with a bond record of the
given issuer type that is not an asset-backed security, ordered by count
descending, first 10 rows. -/
def get_most_traded_df (issuer_type : String) (db : DB) : List (String × Nat) :=
  let qual := db.trades.filter (mostTradedPred db issuer_type)
  (List.insertionSort (fun a b : String × Nat => b.2 ≤ a.2)
    (groupCounts (qual.map (·.isin)))).take 10

/-- The WHERE clause of `get_most_quoted_df` (source lines 58-60). -/
def mostQuotedPred (db : DB) (q : Quote) : Bool :=
  existsBondNotABS db q.isin && inDayWindow q.quote_datetime

/-- `get_most_quoted_df` (source lines 54-64): per-isin quote counts over the
day window, excluding asset-backed securities, ordered by count descending,
first 10 rows.  The call sites of this function are commented out in the
source (lines 254-257). -/
def get_most_quoted_df (db : DB) : List (String × Nat) :=
  let qual := db.quotes.filter (mostQuotedPred db)
  (List.insertionSort (fun a b : String × Nat => b.2 ≤ a.2)
    (groupCounts (qual.map (·.isin)))).take 10

/-- One metrics record of `get_top_level_metrics_df`:
`count(distinct(isin))`, `count(id)`, `count(distinct(venue))`. -/
structure Metrics where
  how_many_isins : Nat
  how_many_trades : Nat
  how_many_venues : Nat
deriving DecidableEq, Repr

/-- The three aggregates of source lines 69 and 76 over a list of trades.
`count(id)` counts every row (`id` is non-null); `count(distinct(venue))`
ignores NULL venues. -/
def metricsOf (l : List Trade) : Metrics :=
  { how_many_isins := ((l.map (·.isin)).dedup).length
    how_many_trades := l.length
    how_many_venues := ((l.filterMap (·.venue)).dedup).length }

/-- The day-window rows aggregated by the first query of
`get_top_level_metrics_df` (source lines 68-73). -/
def topLevelDayTrades (db : DB) : List Trade :=
  db.trades.filter fun t =>
    existsBondNotABS db t.isin && inDayWindow t.trade_datetime

/-- The month-window rows aggregated by the second query of
`get_top_level_metrics_df` (source lines 75-80). -/
def topLevelMonthTrades (db : DB) : List Trade :=
  db.trades.filter fun t =>
    existsBondNotABS db t.isin && inMonthWindow t.trade_datetime

/-- `get_top_level_metrics_df` (source lines 66-82): the pair
`(last_day_metrics, last_month_metrics)`. -/
def get_top_level_metrics_df (db : DB) : Metrics × Metrics :=
  (metricsOf (topLevelDayTrades db), metricsOf (topLevelMonthTrades db))

/-- One row of `get_venue_metrics_df`: venue MIC, mapped venue name,
`count(distinct(isin))`, `count(*)`. -/
structure VenueMetricsRow where
  venueMIC : Option String
  venueName : Option String
  bondsTraded : Nat
  numTrades : Nat
deriving DecidableEq, Repr

/-- The rows aggregated by `get_venue_metrics_df` (source lines 86-93):
month-window trades whose isin has a bond record of the given issuer type
that is not an asset-backed security. -/
def venueQualTrades (issuer_type : String) (db : DB) : List Trade :=
  db.trades.filter fun t =>
    (db.bonds.any fun b =>
      (b.isin == t.isin) && !(b.asset_class == "asset-backed security")
        && (b.issuer_type == issuer_type))
    && inMonthWindow t.trade_datetime

/-- The dict built from `mic_venue_codes.csv` at source line 96: first
matching MIC wins. -/
def micLookup (micMap : List (String × String)) (m : String) : Option String :=
  (micMap.find? fun p => p.1 == m).map (·.2)

/-- Ordering used by `sort_values("Venue name")`: missing names sort last. -/
def nameLeB : Option String → Option String → Bool
  | some a, some b => a ≤ b
  | some _, none => true
  | none, some _ => false
  | none, none => true

/-- `get_venue_metrics_df(issuer_type)` (source lines 84-99): per-venue
distinct-isin and trade counts over the trailing month, joined with the
static venue-name mapping, sorted by venue name. -/
def get_venue_metrics_df (issuer_type : String) (micMap : List (String × String))
    (db : DB) : List VenueMetricsRow :=
  let qual := venueQualTrades issuer_type db
  let rows := ((qual.map (·.venue)).dedup).map fun v =>
    { venueMIC := v
      venueName := v.bind (micLookup micMap)
      bondsTraded := (((qual.filter (·.venue == v)).map (·.isin)).dedup).length
      numTrades := (qual.filter (·.venue == v)).length : VenueMetricsRow }
  List.insertionSort (fun r s : VenueMetricsRow => nameLeB r.venueName s.venueName = true) rows

/-- The venue coverage branch (source lines 353-364).  Note that the source
passes issuer type `"corporate"` for the table it labels
`"Government bonds:"` (line 357) and `"government"` for the table it labels
`"Corporate bonds:"` (line 362). -/
def venueCoverageView (micMap : List (String × String)) (db : DB) :
    List (String × List VenueMetricsRow) :=
  [("Government bonds:", get_venue_metrics_df "corporate" micMap db),
   ("Corporate bonds:", get_venue_metrics_df "government" micMap db)]

/-- Error produced when a query binds an empty venue tuple: the driver
renders the empty tuple as an empty `IN` value list, which PostgreSQL
rejects. -/
def emptyInError : String := "empty IN list is invalid SQL"

/-- A row of the per-issue trades/quotes result sets
(`price, quantity, side, timestamp, venue, source`). -/
structure DisplayRow where
  price : Int
  quantity : Int
  side : String
  timestamp : Option Int
  venue : Option String
  source : String
deriving DecidableEq, Repr

/-- The `quotes_df` query of the per-issue view (source lines 269-275):
quotes of the given isin in the day window with `price > 0`, selecting the
constant `'DFRA'` as venue. -/
def quotesQuery (isin : String) (db : DB) : List DisplayRow :=
  (db.quotes.filter fun q =>
      (q.isin == isin) && decide (0 < q.price) && inDayWindow q.quote_datetime).map
    fun q =>
      { price := q.price, quantity := q.quantity, side := q.side,
        timestamp := q.quote_datetime, venue := some "DFRA", source := q.source }

/-- The row shape of the per-issue `trades_df` SELECT (source line 278):
`GREATEST(quantity, notional_amount) as quantity`, constant `'trade'` side. -/
def displayOfTrade (t : Trade) : DisplayRow :=
  { price := t.price, quantity := max t.quantity t.notional_amount,
    side := "trade", timestamp := t.trade_datetime,
    venue := t.venue, source := t.source }

/-- The `trades_df` query of the per-issue view (source lines 277-284):
trades of the given isin in the day window with `price_type = 'PERC'` and
venue among the selected venues; fails when the venue tuple is empty. -/
def perIssueTradesQuery (isin : String) (venues : List String) (db : DB) :
    Except String (List DisplayRow) :=
  if venues.isEmpty then .error emptyInError
  else .ok <|
    (db.trades.filter fun t =>
        (t.isin == isin) && inDayWindow t.trade_datetime
          && (t.price_type == "PERC") && venueIn t.venue venues).map
      displayOfTrade

/-- A row of the `issue_df` static reference query (source lines 288-291). -/
structure IssueRow where
  ticker : String
  issuer : String
  coupon : Int
  maturity_date : Int
  currency : String
  issuer_type : String
  asset_class : String
  tp_sector : String
deriving DecidableEq, Repr

/-- The `issue_df` query of the per-issue view (source lines 288-291). -/
def issueQuery (isin : String) (db : DB) : List IssueRow :=
  (db.bonds.filter (·.isin == isin)).map fun b =>
    { ticker := b.ticker, issuer := b.issuer, coupon := b.coupon,
      maturity_date := b.maturity_date, currency := b.currency,
      issuer_type := b.issuer_type, asset_class := b.asset_class,
      tp_sector := b.tp_sector }

/-- One displayed element of the per-issue view. -/
inductive RenderItem where
  /-- A `st.dataframe` most-traded table together with its issuer type. -/
  | mostTradedTable (issuer_type : String) (rows : List (String × Nat))
  /-- The most-quoted table.  The source contains its display only as a
  commented-out block (lines 254-257), so no view ever emits this item. -/
  | mostQuotedTable (rows : List (String × Nat))
  /-- The static reference table `issue_df`. -/
  | issueTable (rows : List IssueRow)
  /-- The four plotly charts, which all draw from the same dataframe `df`. -/
  | charts (data : List DisplayRow)
  /-- A `st.write` text message. -/
  | message (text : String)
deriving DecidableEq, Repr

/-- The message of source line 350. -/
def noTradesMsg : String := "No trades found. Please try a different ISIN."

/-- The per-issue view branch (source lines 239-350): two most-traded
tables, then — depending on the trade query result — either the static
reference row plus the four charts over `df = trades_df` (the
`pd.concat([quotes_df, trades_df])` of line 293 is commented out, so the
quotes are never charted), or the not-found message when a non-empty isin
was entered, or nothing beyond the tables.  The quotes query is executed by
the source but its result is unused. -/
def perIssueView (isin : String) (selectedVenues : List String) (db : DB) :
    Except String (List RenderItem) :=
  match perIssueTradesQuery isin selectedVenues db with
  | .error e => .error e
  | .ok trades =>
    let base := [RenderItem.mostTradedTable "government" (get_most_traded_df "government" db),
                 RenderItem.mostTradedTable "corporate" (get_most_traded_df "corporate" db)]
    if 0 < trades.length then
      .ok (base ++ [RenderItem.issueTable (issueQuery isin db),
                    RenderItem.charts trades])
    else if 0 < isin.length then
      .ok (base ++ [RenderItem.message noTradesMsg])
    else
      .ok base

/-- The WHERE clause shared by the two asset-class-view queries (source
lines 188-197 and 210-219): a bond of the chosen country and issuer type
exists for the isin, the trade is in the day window with a non-null
timestamp, and the venue is among the selected venues. -/
def acTradePred (country issuer_type : String) (venues : List String) (db : DB)
    (t : Trade) : Bool :=
  (db.bonds.any fun b =>
    (b.country == country) && (b.issuer_type == issuer_type) && (b.isin == t.isin))
  && inDayWindow t.trade_datetime && t.trade_datetime.isSome
  && venueIn t.venue venues

/-- A row of the asset-class-view `trades_df` (source line 187):
`1 as i, trade_datetime, GREATEST(quantity, notional_amount) as quantity`. -/
structure ACRow where
  i : Nat
  trade_datetime : Option Int
  quantity : Int
deriving DecidableEq, Repr

/-- The asset-class-view `trades_df` query (source lines 186-198); fails
when the venue tuple is empty. -/
def assetClassTradesQuery (country issuer_type : String) (venues : List String)
    (db : DB) : Except String (List ACRow) :=
  if venues.isEmpty then .error emptyInError
  else .ok <|
    (db.trades.filter (acTradePred country issuer_type venues db)).map fun t =>
      { i := 1, trade_datetime := t.trade_datetime,
        quantity := max t.quantity t.notional_amount }

/-- A row of `trades_per_venue_df` (source line 209):
`venue, count(*) how_many, sum(GREATEST(quantity, notional_amount)) total_quantity`. -/
structure VenueAggRow where
  venue : Option String
  how_many : Nat
  total_quantity : Int
deriving DecidableEq, Repr

/-- The asset-class-view `trades_per_venue_df` query (source lines 208-221);
fails when the venue tuple is empty. -/
def tradesPerVenueQuery (country issuer_type : String) (venues : List String)
    (db : DB) : Except String (List VenueAggRow) :=
  if venues.isEmpty then .error emptyInError
  else
    let qual := db.trades.filter (acTradePred country issuer_type venues db)
    .ok <| ((qual.map (·.venue)).dedup).map fun v =>
      { venue := v
        how_many := (qual.filter (·.venue == v)).length
        total_quantity :=
          ((qual.filter (·.venue == v)).map fun t =>
            max t.quantity t.notional_amount).sum }

/-! Concrete sample data used by witnesses and counterexamples: one
government and one corporate bond, one day-window trade of each on distinct
venues, and one day-window quote on the government bond. -/

/-- A government bond of the United Kingdom, not asset-backed. -/
def exBondG : Bond :=
  { isin := "G1", ticker := "UKT", issuer := "UK Treasury", coupon := 4,
    maturity_date := 0, currency := "GBP", issuer_type := "government",
    asset_class := "sovereign", country := "United Kingdom", tp_sector := "govt" }

/-- A corporate bond of Germany, not asset-backed. -/
def exBondC : Bond :=
  { isin := "C1", ticker := "DTE", issuer := "Deutsche Telekom", coupon := 5,
    maturity_date := 0, currency := "EUR", issuer_type := "corporate",
    asset_class := "corporate", country := "Germany", tp_sector := "telecom" }

/-- A day-window `PERC` trade on the government bond at venue `XLON`. -/
def exTradeG : Trade :=
  { id := 1, isin := "G1", venue := some "XLON",
    trade_datetime := some (dayStart + 3600), price := 99,
    price_type := "PERC", quantity := 10, notional_amount := 25,
    source := "feedA" }

/-- A day-window `PERC` trade on the corporate bond at venue `XETR`. -/
def exTradeC : Trade :=
  { id := 2, isin := "C1", venue := some "XETR",
    trade_datetime := some (dayStart + 7200), price := 101,
    price_type := "PERC", quantity := 30, notional_amount := 7,
    source := "feedB" }

/-- A day-window quote on the government bond with a positive price. -/
def exQuote : Quote :=
  { isin := "G1", quote_datetime := some (dayStart + 5400), price := 100,
    quantity := 5, side := "bid", source := "frankfurt" }

/-- The sample database. -/
def exDb : DB := { trades := [exTradeG, exTradeC], quotes := [exQuote], bonds := [exBondG, exBondC] }

/-- A sample database with no trades at all. -/
def exDbNoTrades : DB := { trades := [], quotes := [exQuote], bonds := [exBondG, exBondC] }

/-- A sample MIC-to-name mapping. -/
def exMicMap : List (String × String) :=
  [("XLON", "London Stock Exchange"), ("XETR", "Deutsche Boerse")]

/-- Cache persistence length in seconds (source line 15): `ttl = 7_200`. -/
def ttl : Nat := 7200

/-- The memoization store of the result cache: a list of
(argument, value, storage time) entries. -/
structure Cache (α β : Type) where
  entries : List (α × β × Nat)

/-- The cache with no stored entries. -/
def Cache.empty {α β : Type} : Cache α β := ⟨[]⟩

/-- Modelled from the spec: the memoization decorator applied to every query
function is library code not under src/.  Per the spec, the result cache
maps an argument tuple to a stored query result, an entry expires after the
configured time-to-live, and on a miss or an expired entry the underlying
query runs again and its result is stored.  The returned flag records
whether the underlying function was executed by this call. -/
def cachedCall {α β : Type} [DecidableEq α] (f : α → β) (T : Nat)
    (c : Cache α β) (a : α) (now : Nat) : β × Cache α β × Bool :=
  match c.entries.find? (fun e => (e.1 == a) && decide (now < e.2.2 + T)) with
  | some e => (e.2.1, c, false)
  | none => (f a, ⟨(a, f a, now) :: c.entries⟩, true)

/-! ## Theorems -/

/-- C1, counterexample: on the sample database, an empty selected-venues set
does not make the venue-filtered queries return zero rows; each of the three
queries fails with the empty-IN-list error, because the driver renders the
empty venue tuple as an empty `IN ()` list, which PostgreSQL rejects. -/
theorem empty_venue_queries_error_cex :
    perIssueTradesQuery "G1" [] exDb = Except.error emptyInError ∧
    assetClassTradesQuery "United Kingdom" "government" [] exDb = Except.error emptyInError ∧
    tradesPerVenueQuery "United Kingdom" "government" [] exDb = Except.error emptyInError ∧
    perIssueTradesQuery "G1" [] exDb ≠ Except.ok [] :=
  ⟨rfl, rfl, rfl, fun h => Except.noConfusion h⟩

/-- C1, amended: for every database, every country, issuer type and isin, an
empty selected-venues set makes each venue-filtered query (asset-class-view
trades, trades-per-venue, per-issue trades) fail with the empty-IN-list
error instead of returning zero rows (and instead of matching all rows). -/
theorem empty_venue_queries_error (db : DB) (country issuer_type isin : String) :
    perIssueTradesQuery isin [] db = Except.error emptyInError ∧
    assetClassTradesQuery country issuer_type [] db = Except.error emptyInError ∧
    tradesPerVenueQuery country issuer_type [] db = Except.error emptyInError :=
  ⟨rfl, rfl, rfl⟩

/-- C2: on the sample database — one government-bond trade at `XLON`, one
corporate-bond trade at `XETR` — the venue coverage view labels the table of
the corporate-bond metrics (`XETR` row) as `"Government bonds:"` and the
table of the government-bond metrics (`XLON` row) as `"Corporate bonds:"`;
the two tables are distinct, so the labels really are swapped relative to
the issuer types used to compute them. -/
theorem venue_coverage_labels_swapped :
    venueCoverageView exMicMap exDb =
      [("Government bonds:", get_venue_metrics_df "corporate" exMicMap exDb),
       ("Corporate bonds:", get_venue_metrics_df "government" exMicMap exDb)] ∧
    (venueCoverageView exMicMap exDb).head? =
      some ("Government bonds:",
        [(⟨some "XETR", some "Deutsche Boerse", 1, 1⟩ : VenueMetricsRow)]) ∧
    (venueCoverageView exMicMap exDb)[1]? =
      some ("Corporate bonds:",
        [(⟨some "XLON", some "London Stock Exchange", 1, 1⟩ : VenueMetricsRow)]) ∧
    get_venue_metrics_df "government" exMicMap exDb ≠
      get_venue_metrics_df "corporate" exMicMap exDb := by
  refine ⟨rfl, ?_, ?_, ?_⟩ <;> decide

/-- C3, counterexample: on the sample database, with an isin that has both a
day-window trade and a day-window quote, the per-issue view renders the two
most-traded tables, the static reference row and the charts over the trade
rows only — no most-quoted table at all, and no quote row in the chart data
even though the quotes query returns one. -/
theorem per_issue_no_quoted_table_cex :
    perIssueView "G1" ["XLON", "XETR"] exDb =
      Except.ok
        [RenderItem.mostTradedTable "government" [("G1", 1)],
         RenderItem.mostTradedTable "corporate" [("C1", 1)],
         RenderItem.issueTable
           [⟨"UKT", "UK Treasury", 4, 0, "GBP", "government", "sovereign", "govt"⟩],
         RenderItem.charts [⟨99, 25, "trade", some 1685667600, some "XLON", "feedA"⟩]] ∧
    quotesQuery "G1" exDb = [⟨100, 5, "bid", some 1685669400, some "DFRA", "frankfurt"⟩] :=
  ⟨by rfl, by decide⟩

/-- Helper: with a non-empty selected-venues list the per-issue trades query
succeeds, returning the filtered trades in display shape. -/
theorem perIssueTradesQuery_ok (isin : String) (venues : List String) (db : DB)
    (hv : venues ≠ []) :
    perIssueTradesQuery isin venues db = Except.ok
      ((db.trades.filter fun t =>
          (t.isin == isin) && inDayWindow t.trade_datetime
            && (t.price_type == "PERC") && venueIn t.venue venues).map
        displayOfTrade) := by
  have hne : venues.isEmpty = false := by
    cases venues with
    | nil => exact absurd rfl hv
    | cons a l => rfl
  simp [perIssueTradesQuery, hne]

/-- Helper: every row of the per-issue trades result set comes from a stored
trade of the requested isin, reshaped by `displayOfTrade`. -/
theorem mem_perIssueTrades {isin : String} {venues : List String} {db : DB}
    {r : DisplayRow}
    (hr : r ∈ (db.trades.filter fun t =>
        (t.isin == isin) && inDayWindow t.trade_datetime
          && (t.price_type == "PERC") && venueIn t.venue venues).map displayOfTrade) :
    ∃ t ∈ db.trades, t.isin = isin ∧ r = displayOfTrade t := by
  rcases List.mem_map.mp hr with ⟨t, ht, rfl⟩
  rcases List.mem_filter.mp ht with ⟨htm, hcond⟩
  simp only [Bool.and_eq_true, beq_iff_eq] at hcond
  exact ⟨t, htm, hcond.1.1.1, rfl⟩

/-- C3, amended: with a non-empty selected-venues list, the per-issue view
renders the two top-10 most-traded tables (government and corporate); it
renders no most-quoted table (that display is commented out in the source);
any rendered static reference table is the bond reference rows of the
requested isin; and any rendered chart draws from trade rows only — every
chart row has side `"trade"` and is the display shape of a stored trade of
the requested isin, so quotes are never charted. -/
theorem per_issue_view_renders (isin : String) (venues : List String) (db : DB)
    (hv : venues ≠ []) :
    ∃ l, perIssueView isin venues db = Except.ok l ∧
      RenderItem.mostTradedTable "government" (get_most_traded_df "government" db) ∈ l ∧
      RenderItem.mostTradedTable "corporate" (get_most_traded_df "corporate" db) ∈ l ∧
      (∀ rows, RenderItem.mostQuotedTable rows ∉ l) ∧
      (∀ rows, RenderItem.issueTable rows ∈ l → rows = issueQuery isin db) ∧
      (∀ data, RenderItem.charts data ∈ l → ∀ r ∈ data,
        r.side = "trade" ∧ ∃ t ∈ db.trades, t.isin = isin ∧ r = displayOfTrade t) := by
  simp only [perIssueView, perIssueTradesQuery_ok isin venues db hv]
  by_cases h : 0 < (db.trades.filter fun t =>
      (t.isin == isin) && inDayWindow t.trade_datetime
        && (t.price_type == "PERC") && venueIn t.venue venues).length
  · rw [if_pos (by simpa using h)]
    refine ⟨_, rfl, by simp, by simp, ?_, ?_, ?_⟩
    · intro rows hmem
      simp [List.mem_cons] at hmem
    · intro rows hmem
      simp only [List.mem_append, List.mem_cons, List.not_mem_nil, or_false] at hmem
      rcases hmem with (h' | h') | h' | h' <;> simp_all
    · intro data hmem
      simp only [List.mem_append, List.mem_cons, List.not_mem_nil, or_false] at hmem
      rcases hmem with (h' | h') | h' | h'
      · exact absurd h' (by simp)
      · exact absurd h' (by simp)
      · exact absurd h' (by simp)
      · cases h'
        intro r hr
        rcases mem_perIssueTrades hr with ⟨t, htm, hisin, hshape⟩
        exact ⟨by rw [hshape]; rfl, t, htm, hisin, hshape⟩
  · rw [if_neg (by simpa using h)]
    by_cases hi : 0 < isin.length
    · rw [if_pos hi]
      refine ⟨_, rfl, by simp, by simp, ?_, ?_, ?_⟩
      · intro rows hmem
        simp [List.mem_cons] at hmem
      · intro rows hmem
        simp [List.mem_cons] at hmem
      · intro data hmem
        simp [List.mem_cons] at hmem
    · rw [if_neg hi]
      refine ⟨_, rfl, by simp, by simp, ?_, ?_, ?_⟩
      · intro rows hmem
        simp [List.mem_cons] at hmem
      · intro rows hmem
        simp [List.mem_cons] at hmem
      · intro data hmem
        simp [List.mem_cons] at hmem

/-- C3, witness: the amended per-issue view property at the sample database
with isin `"G1"` and selected venue `"XLON"`. -/
theorem per_issue_view_renders_witness :
    ∃ l, perIssueView "G1" ["XLON"] exDb = Except.ok l ∧
      RenderItem.mostTradedTable "government" (get_most_traded_df "government" exDb) ∈ l ∧
      RenderItem.mostTradedTable "corporate" (get_most_traded_df "corporate" exDb) ∈ l ∧
      (∀ rows, RenderItem.mostQuotedTable rows ∉ l) ∧
      (∀ rows, RenderItem.issueTable rows ∈ l → rows = issueQuery "G1" exDb) ∧
      (∀ data, RenderItem.charts data ∈ l → ∀ r ∈ data,
        r.side = "trade" ∧ ∃ t ∈ exDb.trades, t.isin = "G1" ∧ r = displayOfTrade t) :=
  per_issue_view_renders "G1" ["XLON"] exDb (List.cons_ne_nil _ _)

/-- C5: when the per-issue trades query succeeds with zero rows, the
per-issue view renders the not-found message exactly when the entered isin
string is non-empty, and renders no charts and no reference table in either
case. -/
theorem per_issue_no_trades_message (isin : String) (venues : List String) (db : DB)
    (hempty : perIssueTradesQuery isin venues db = Except.ok []) :
    ∃ l, perIssueView isin venues db = Except.ok l ∧
      (0 < isin.length → RenderItem.message noTradesMsg ∈ l) ∧
      (isin.length = 0 → ∀ s, RenderItem.message s ∉ l) ∧
      (∀ data, RenderItem.charts data ∉ l) ∧
      (∀ rows, RenderItem.issueTable rows ∉ l) := by
  simp only [perIssueView, hempty, List.length_nil, Nat.lt_irrefl, if_false]
  by_cases hi : 0 < isin.length
  · rw [if_pos hi]
    refine ⟨_, rfl, fun _ => by simp, fun h0 => absurd h0 (by omega), ?_, ?_⟩
    · intro data hmem
      simp [List.mem_cons] at hmem
    · intro rows hmem
      simp [List.mem_cons] at hmem
  · rw [if_neg hi]
    refine ⟨_, rfl, fun h0 => absurd h0 hi, fun _ => ?_, ?_, ?_⟩
    · intro s hmem
      simp [List.mem_cons] at hmem
    · intro data hmem
      simp [List.mem_cons] at hmem
    · intro rows hmem
      simp [List.mem_cons] at hmem

/-- C5, witness: on a sample database with no trades, the per-issue view for
the non-empty isin `"XS0000000000"` and a non-empty venue selection renders
the not-found message and no charts. -/
theorem per_issue_no_trades_message_witness :
    ∃ l, perIssueView "XS0000000000" ["XLON"] exDbNoTrades = Except.ok l ∧
      (0 < ("XS0000000000" : String).length → RenderItem.message noTradesMsg ∈ l) ∧
      (("XS0000000000" : String).length = 0 → ∀ s, RenderItem.message s ∉ l) ∧
      (∀ data, RenderItem.charts data ∉ l) ∧
      (∀ rows, RenderItem.issueTable rows ∉ l) :=
  per_issue_no_trades_message "XS0000000000" ["XLON"] exDbNoTrades (by rfl)

/-- Helper: a true `existsBondNotABS` check exhibits a bond record of the
isin whose asset class is not asset-backed. -/
theorem existsBondNotABS_spec {db : DB} {isin : String}
    (h : existsBondNotABS db isin = true) :
    ∃ b ∈ db.bonds, b.isin = isin ∧ b.asset_class ≠ "asset-backed security" := by
  rcases List.any_eq_true.mp h with ⟨b, hb, hcond⟩
  simp only [Bool.and_eq_true, beq_iff_eq, Bool.not_eq_true', beq_eq_false_iff_ne] at hcond
  exact ⟨b, hb, hcond.1, hcond.2⟩

/-- Helper: a true `existsBondIssuerNotABS` check exhibits a bond record of
the isin with the requested issuer type whose asset class is not
asset-backed. -/
theorem existsBondIssuerNotABS_spec {db : DB} {isin issuer_type : String}
    (h : existsBondIssuerNotABS db isin issuer_type = true) :
    ∃ b ∈ db.bonds, b.isin = isin ∧ b.issuer_type = issuer_type ∧
      b.asset_class ≠ "asset-backed security" := by
  rcases List.any_eq_true.mp h with ⟨b, hb, hcond⟩
  simp only [Bool.and_eq_true, beq_iff_eq, Bool.not_eq_true', beq_eq_false_iff_ne] at hcond
  exact ⟨b, hb, hcond.1.1, hcond.1.2, hcond.2⟩

/-- Helper: membership in `groupCounts` gives the isin's origin and its
count. -/
theorem mem_groupCounts {xs : List String} {p : String × Nat}
    (hp : p ∈ groupCounts xs) : p.1 ∈ xs ∧ p.2 = xs.count p.1 := by
  rcases List.mem_map.mp hp with ⟨i, hi, h⟩
  cases h
  exact ⟨List.mem_dedup.mp hi, rfl⟩

/-- Helper: a true window check means the timestamp is present and lies in
the half-open interval from `dayStart` (exclusively, hence a fortiori
inclusively) up to `dayEnd`. -/
theorem inDayWindow_bounds {ts : Option Int} (h : inDayWindow ts = true) :
    ∃ s, ts = some s ∧ dayStart ≤ s ∧ s < dayEnd := by
  cases ts with
  | none => exact absurd h (by simp [inDayWindow, tsAfter])
  | some s =>
    simp only [inDayWindow, tsAfter, tsBefore, Bool.and_eq_true, decide_eq_true_eq] at h
    exact ⟨s, rfl, le_of_lt h.1, h.2⟩

/-- C4: for the fixed reporting day 2023-06-02 and issuer type
`"government"`, `get_most_traded_df` returns at most 10 rows, ordered
descending by the `how_many` count; assuming the bonds table keys its
records by isin, no returned isin has an asset-backed bond record; each
row's count is exactly the number of trades of that isin passing the query
filter, and every trade passing the filter has a timestamp within
[2023-06-02 00:00, 2023-06-03 00:00). -/
theorem most_traded_government_spec (db : DB)
    (huniq : ∀ b1 ∈ db.bonds, ∀ b2 ∈ db.bonds, b1.isin = b2.isin → b1 = b2) :
    (get_most_traded_df "government" db).length ≤ 10 ∧
    List.Sorted (fun a b : String × Nat => b.2 ≤ a.2) (get_most_traded_df "government" db) ∧
    (∀ p ∈ get_most_traded_df "government" db, ∀ b ∈ db.bonds, b.isin = p.1 →
      b.asset_class ≠ "asset-backed security") ∧
    (∀ p ∈ get_most_traded_df "government" db,
      p.2 = ((db.trades.filter (mostTradedPred db "government")).filter
        (fun t => t.isin == p.1)).length) ∧
    (∀ t, mostTradedPred db "government" t = true →
      ∃ s, t.trade_datetime = some s ∧ dayStart ≤ s ∧ s < dayEnd) := by
  haveI htot : IsTotal (String × Nat) (fun a b => b.2 ≤ a.2) :=
    ⟨fun a b => Nat.le_total b.2 a.2⟩
  haveI htr : IsTrans (String × Nat) (fun a b => b.2 ≤ a.2) :=
    ⟨fun _ _ _ h1 h2 => le_trans h2 h1⟩
  have hmem : ∀ p ∈ get_most_traded_df "government" db,
      p.1 ∈ ((db.trades.filter (mostTradedPred db "government")).map (·.isin)) ∧
      p.2 = ((db.trades.filter (mostTradedPred db "government")).map (·.isin)).count p.1 := by
    intro p hp
    exact mem_groupCounts (List.mem_insertionSort _ |>.mp (List.mem_of_mem_take hp))
  refine ⟨List.length_take_le _ _, ?_, ?_, ?_, ?_⟩
  · exact List.Pairwise.sublist (List.take_sublist _ _) (List.sorted_insertionSort _ _)
  · intro p hp b hb hbisin
    rcases (hmem p hp).1 with hin
    rcases List.mem_map.mp hin with ⟨t, ht, hisin⟩
    rcases List.mem_filter.mp ht with ⟨_, hcond⟩
    simp only [mostTradedPred, Bool.and_eq_true] at hcond
    rcases existsBondIssuerNotABS_spec hcond.1 with ⟨b0, hb0, hb0isin, _, hb0abs⟩
    have : b = b0 := huniq b hb b0 hb0 (by rw [hbisin, ← hisin, hb0isin])
    rw [this]
    exact hb0abs
  · intro p hp
    rw [(hmem p hp).2, List.count_eq_countP, List.countP_map,
      List.countP_eq_length_filter]
    rfl
  · intro t ht
    simp only [mostTradedPred, Bool.and_eq_true] at ht
    exact inDayWindow_bounds ht.2

/-- C4, witness: the most-traded property at the sample database, whose
bonds table keys its two records by isin. -/
theorem most_traded_government_spec_witness :
    (get_most_traded_df "government" exDb).length ≤ 10 ∧
    List.Sorted (fun a b : String × Nat => b.2 ≤ a.2) (get_most_traded_df "government" exDb) ∧
    (∀ p ∈ get_most_traded_df "government" exDb, ∀ b ∈ exDb.bonds, b.isin = p.1 →
      b.asset_class ≠ "asset-backed security") ∧
    (∀ p ∈ get_most_traded_df "government" exDb,
      p.2 = ((exDb.trades.filter (mostTradedPred exDb "government")).filter
        (fun t => t.isin == p.1)).length) ∧
    (∀ t, mostTradedPred exDb "government" t = true →
      ∃ s, t.trade_datetime = some s ∧ dayStart ≤ s ∧ s < dayEnd) :=
  most_traded_government_spec exDb (by decide)

/-- C6: the eligible-venues result is duplicate-free, sorted ascending, and
a venue is in it exactly when some stored trade carries it (non-null) inside
the day window with `price_type = 'PERC'`. -/
theorem eligible_venues_sorted_nodup_complete (db : DB) :
    (get_eligible_venues db).Nodup ∧
    List.Sorted (fun a b : String => a ≤ b) (get_eligible_venues db) ∧
    ∀ v, v ∈ get_eligible_venues db ↔
      ∃ t ∈ db.trades, t.venue = some v ∧ inDayWindow t.trade_datetime = true ∧
        t.price_type = "PERC" := by
  refine ⟨?_, List.sorted_insertionSort _ _, ?_⟩
  · exact (List.perm_insertionSort _ _).nodup_iff.mpr (List.nodup_dedup _)
  · intro v
    simp only [get_eligible_venues, List.mem_insertionSort, List.mem_dedup,
      List.mem_filterMap]
    constructor
    · rintro ⟨t, ht, hv⟩
      rcases List.mem_filter.mp ht with ⟨htm, hcond⟩
      simp only [Bool.and_eq_true, beq_iff_eq] at hcond
      exact ⟨t, htm, hv, hcond.1.1, hcond.1.2⟩
    · rintro ⟨t, htm, hv, hwin, hperc⟩
      exact ⟨t, List.mem_filter.mpr ⟨htm, by simp [hwin, hperc, hv]⟩, hv⟩

/-- C6, witness: the eligible-venues property at the sample database. -/
theorem eligible_venues_witness :
    (get_eligible_venues exDb).Nodup ∧
    List.Sorted (fun a b : String => a ≤ b) (get_eligible_venues exDb) ∧
    ∀ v, v ∈ get_eligible_venues exDb ↔
      ∃ t ∈ exDb.trades, t.venue = some v ∧ inDayWindow t.trade_datetime = true ∧
        t.price_type = "PERC" :=
  eligible_venues_sorted_nodup_complete exDb

/-- C7: every row returned by the asset-class-view trades query and by the
per-issue trades query displays as its quantity the maximum of the stored
trade's `quantity` and `notional_amount`. -/
theorem quantity_display_is_max (country issuer_type isin : String)
    (venues : List String) (db : DB) :
    (∀ rows, assetClassTradesQuery country issuer_type venues db = Except.ok rows →
      ∀ r ∈ rows, ∃ t ∈ db.trades, r.quantity = max t.quantity t.notional_amount) ∧
    (∀ rows, perIssueTradesQuery isin venues db = Except.ok rows →
      ∀ r ∈ rows, ∃ t ∈ db.trades, r.quantity = max t.quantity t.notional_amount) := by
  constructor
  · intro rows hok r hr
    unfold assetClassTradesQuery at hok
    by_cases he : venues.isEmpty = true
    · rw [if_pos he] at hok
      exact absurd hok (by simp)
    · rw [if_neg he] at hok
      injection hok with h
      subst h
      rcases List.mem_map.mp hr with ⟨t, ht, rfl⟩
      exact ⟨t, (List.mem_filter.mp ht).1, rfl⟩
  · intro rows hok r hr
    unfold perIssueTradesQuery at hok
    by_cases he : venues.isEmpty = true
    · rw [if_pos he] at hok
      exact absurd hok (by simp)
    · rw [if_neg he] at hok
      injection hok with h
      subst h
      rcases List.mem_map.mp hr with ⟨t, ht, rfl⟩
      exact ⟨t, (List.mem_filter.mp ht).1, rfl⟩

/-- C7, witness: the quantity-for-display property at the sample database
and a venue selection under which both queries succeed with a row each. -/
theorem quantity_display_is_max_witness :
    (∀ rows, assetClassTradesQuery "United Kingdom" "government" ["XLON"] exDb = Except.ok rows →
      ∀ r ∈ rows, ∃ t ∈ exDb.trades, r.quantity = max t.quantity t.notional_amount) ∧
    (∀ rows, perIssueTradesQuery "G1" ["XLON"] exDb = Except.ok rows →
      ∀ r ∈ rows, ∃ t ∈ exDb.trades, r.quantity = max t.quantity t.notional_amount) :=
  quantity_display_is_max "United Kingdom" "government" "G1" ["XLON"] exDb

/-- C9: every row returned by the per-issue quotes query has a strictly
positive price and carries the constant venue `'DFRA'`, whatever the
underlying quote's `source`; the row originates from a stored quote of the
requested isin. -/
theorem quotes_query_positive_dfra (isin : String) (db : DB) :
    ∀ r ∈ quotesQuery isin db, 0 < r.price ∧ r.venue = some "DFRA" ∧
      ∃ q ∈ db.quotes, q.isin = isin ∧ r.price = q.price ∧ r.source = q.source := by
  intro r hr
  rcases List.mem_map.mp hr with ⟨q, hq, rfl⟩
  rcases List.mem_filter.mp hq with ⟨hqm, hcond⟩
  simp only [Bool.and_eq_true, beq_iff_eq, decide_eq_true_eq] at hcond
  exact ⟨hcond.1.2, rfl, q, hqm, hcond.1.1, rfl, rfl⟩

/-- C9, witness: the quotes-query property at the sample database, at the
one concrete row its quotes query for isin `"G1"` returns. -/
theorem quotes_query_positive_dfra_witness :
    0 < (⟨100, 5, "bid", some 1685669400, some "DFRA", "frankfurt"⟩ : DisplayRow).price ∧
    (⟨100, 5, "bid", some 1685669400, some "DFRA", "frankfurt"⟩ : DisplayRow).venue
        = some "DFRA" ∧
    ∃ q ∈ exDb.quotes, q.isin = "G1" ∧
      (⟨100, 5, "bid", some 1685669400, some "DFRA", "frankfurt"⟩ : DisplayRow).price
          = q.price ∧
      (⟨100, 5, "bid", some 1685669400, some "DFRA", "frankfurt"⟩ : DisplayRow).source
          = q.source :=
  quotes_query_positive_dfra "G1" exDb
    ⟨100, 5, "bid", some 1685669400, some "DFRA", "frankfurt"⟩ (by decide)

/-- C10: the top-level metrics aggregate exactly the day-window and
month-window trades passing the asset-backed exclusion; every trade counted
by them, and every trade counted by the per-venue metrics, has a bond record
whose asset class is not `'asset-backed security'` (with, for the venue
metrics, the requested issuer type); a trade all of whose bond records are
asset-backed is excluded from both top-level aggregates; and each per-venue
row's trade count counts qualifying trades of that row's venue only. -/
theorem aggregate_metrics_exclude_abs (db : DB) (issuer_type : String)
    (micMap : List (String × String)) :
    get_top_level_metrics_df db =
      (metricsOf (topLevelDayTrades db), metricsOf (topLevelMonthTrades db)) ∧
    (∀ t ∈ topLevelDayTrades db, ∃ b ∈ db.bonds, b.isin = t.isin ∧
      b.asset_class ≠ "asset-backed security") ∧
    (∀ t ∈ topLevelMonthTrades db, ∃ b ∈ db.bonds, b.isin = t.isin ∧
      b.asset_class ≠ "asset-backed security") ∧
    (∀ t ∈ db.trades,
      (∀ b ∈ db.bonds, b.isin = t.isin → b.asset_class = "asset-backed security") →
      t ∉ topLevelDayTrades db ∧ t ∉ topLevelMonthTrades db) ∧
    (∀ t ∈ venueQualTrades issuer_type db, ∃ b ∈ db.bonds, b.isin = t.isin ∧
      b.asset_class ≠ "asset-backed security" ∧ b.issuer_type = issuer_type) ∧
    (∀ row ∈ get_venue_metrics_df issuer_type micMap db,
      row.numTrades = ((venueQualTrades issuer_type db).filter
        (fun t => t.venue == row.venueMIC)).length) := by
  refine ⟨rfl, ?_, ?_, ?_, ?_, ?_⟩
  · intro t ht
    rcases List.mem_filter.mp ht with ⟨_, hcond⟩
    simp only [Bool.and_eq_true] at hcond
    exact existsBondNotABS_spec hcond.1
  · intro t ht
    rcases List.mem_filter.mp ht with ⟨_, hcond⟩
    simp only [Bool.and_eq_true] at hcond
    exact existsBondNotABS_spec hcond.1
  · intro t _ hall
    constructor
    · intro hmem
      rcases List.mem_filter.mp hmem with ⟨_, hcond⟩
      simp only [Bool.and_eq_true] at hcond
      rcases existsBondNotABS_spec hcond.1 with ⟨b, hb, hisin, habs⟩
      exact habs (hall b hb hisin)
    · intro hmem
      rcases List.mem_filter.mp hmem with ⟨_, hcond⟩
      simp only [Bool.and_eq_true] at hcond
      rcases existsBondNotABS_spec hcond.1 with ⟨b, hb, hisin, habs⟩
      exact habs (hall b hb hisin)
  · intro t ht
    rcases List.mem_filter.mp ht with ⟨_, hcond⟩
    simp only [Bool.and_eq_true] at hcond
    rcases List.any_eq_true.mp hcond.1 with ⟨b, hb, hbc⟩
    simp only [Bool.and_eq_true, beq_iff_eq, Bool.not_eq_true',
      beq_eq_false_iff_ne] at hbc
    exact ⟨b, hb, hbc.1.1, hbc.1.2, hbc.2⟩
  · intro row hrow
    rcases (List.mem_insertionSort _).mp hrow with hrow'
    rcases List.mem_map.mp hrow' with ⟨v, _, h⟩
    cases h
    rfl

/-- C10, witness: the aggregate-metrics exclusion property at the sample
database for the government issuer type and the sample MIC mapping. -/
theorem aggregate_metrics_exclude_abs_witness :
    get_top_level_metrics_df exDb =
      (metricsOf (topLevelDayTrades exDb), metricsOf (topLevelMonthTrades exDb)) ∧
    (∀ t ∈ topLevelDayTrades exDb, ∃ b ∈ exDb.bonds, b.isin = t.isin ∧
      b.asset_class ≠ "asset-backed security") ∧
    (∀ t ∈ topLevelMonthTrades exDb, ∃ b ∈ exDb.bonds, b.isin = t.isin ∧
      b.asset_class ≠ "asset-backed security") ∧
    (∀ t ∈ exDb.trades,
      (∀ b ∈ exDb.bonds, b.isin = t.isin → b.asset_class = "asset-backed security") →
      t ∉ topLevelDayTrades exDb ∧ t ∉ topLevelMonthTrades exDb) ∧
    (∀ t ∈ venueQualTrades "government" exDb, ∃ b ∈ exDb.bonds, b.isin = t.isin ∧
      b.asset_class ≠ "asset-backed security" ∧ b.issuer_type = "government") ∧
    (∀ row ∈ get_venue_metrics_df "government" exMicMap exDb,
      row.numTrades = ((venueQualTrades "government" exDb).filter
        (fun t => t.venue == row.venueMIC)).length) :=
  aggregate_metrics_exclude_abs exDb "government" exMicMap

/-- C8: two calls to a cached query function with identical arguments, the
second within the time-to-live of the first, return value-equal results with
the underlying query executed only by the first call; the configured
time-to-live is `ttl = 7200` seconds (2 hours) for most lookups, and the two
aggregate-metrics functions are decorated with `ttl * 3 = 21600` seconds (6
hours). -/
theorem cache_hit_within_ttl {α β : Type} [DecidableEq α] (f : α → β) (T : Nat)
    (a : α) (t0 t1 : Nat) (h1 : t1 < t0 + T) :
    (cachedCall f T (cachedCall f T Cache.empty a t0).2.1 a t1).1
        = (cachedCall f T Cache.empty a t0).1 ∧
    (cachedCall f T Cache.empty a t0).2.2 = true ∧
    (cachedCall f T (cachedCall f T Cache.empty a t0).2.1 a t1).2.2 = false ∧
    ttl = 2 * 3600 ∧ ttl * 3 = 6 * 3600 := by
  simp [cachedCall, Cache.empty, List.find?, h1, ttl]

/-- C8, witness: the cache property at a concrete function, argument and
pair of call times 3600 seconds apart, within both configured TTLs. -/
theorem cache_hit_within_ttl_witness :
    (cachedCall (fun n : Nat => n + 1) ttl
        (cachedCall (fun n : Nat => n + 1) ttl Cache.empty 5 0).2.1 5 3600).1
      = (cachedCall (fun n : Nat => n + 1) ttl Cache.empty 5 0).1 ∧
    (cachedCall (fun n : Nat => n + 1) ttl Cache.empty 5 0).2.2 = true ∧
    (cachedCall (fun n : Nat => n + 1) ttl
        (cachedCall (fun n : Nat => n + 1) ttl Cache.empty 5 0).2.1 5 3600).2.2 = false ∧
    ttl = 2 * 3600 ∧ ttl * 3 = 6 * 3600 :=
  cache_hit_within_ttl (fun n : Nat => n + 1) ttl 5 0 3600 (by decide)

end Compass
